import Mathlib

/-!
Shallow embedding of the GL resource factory
(`src/backend/gl/src/factory.rs` of the gfx repository).

Native GL interaction is modelled by an explicit call log and a name
counter carried in a `FactoryState`; the handle registry is modelled by
lists of registered objects, a handle being the index at which the
object was registered.  Machine integers of the source (`usize`,
`GLenum`, bitflags) are modelled as `Nat`; the sizes involved never
overflow the checks performed here, and bit masks use `Nat` bitwise
operations.
-/

set_option autoImplicit false

namespace GlFactory

/-! ## GL enumeration constants (values from the OpenGL headers) -/

def ARRAY_BUFFER : Nat := 0x8892

def ELEMENT_ARRAY_BUFFER : Nat := 0x8893

def UNIFORM_BUFFER : Nat := 0x8A11

def MAP_WRITE_BIT : Nat := 0x0002

def DYNAMIC_STORAGE_BIT : Nat := 0x0100

def STATIC_DRAW : Nat := 0x88E4

def DYNAMIC_DRAW : Nat := 0x88E8

def STREAM_DRAW : Nat := 0x88E0

/-! ## Core descriptor types (`gfx_core::factory`) -/

/-- Buffer role: `f::BufferRole` (Vertex | Index | Uniform). -/
inductive BufferRole where
  | Vertex
  | Index
  | Uniform
  deriving DecidableEq, Repr

/-- Mapping access mode: `f::MapAccess`. -/
inductive MapAccess where
  | Readable
  | Writable
  | RW
  deriving DecidableEq, Repr

/-- Buffer usage class: `f::Usage` (`CpuOnly` carries a `MapAccess`). -/
inductive Usage where
  | GpuOnly
  | Const
  | Dynamic
  | CpuOnly (access : MapAccess)
  deriving DecidableEq, Repr

/-- Modelled from the spec: the `Bind` bitflags type lives in
`gfx_core::factory`, outside the provided source; the bind flags named
by the spec are given distinct bits of a `Nat` bitmask. -/
def RENDER_TARGET : Nat := 0x1

def DEPTH_STENCIL : Nat := 0x2

def SHADER_RESOURCE : Nat := 0x4

def UNORDERED_ACCESS : Nat := 0x8

/-- Bitflags intersection test (`Bind::intersects`). -/
def intersects (a b : Nat) : Bool := a &&& b != 0

/-- Buffer descriptor: `f::BufferInfo`. -/
structure BufferInfo where
  role : BufferRole
  usage : Usage
  bind : Nat
  size : Nat
  stride : Nat
  deriving DecidableEq, Repr

/-- Modelled from the spec: the full `f::BufferError` enumeration lives
in `gfx_core`, outside the provided source.  `Other` is the variant the
source returns at its single failure site (factory.rs:211); the spec's
error taxonomy names an `Unsupported` variant for the buffer subsystem,
included here so the two can be compared. -/
inductive BufferError where
  | Other
  | Unsupported
  deriving DecidableEq, Repr

/-! ## Capability flags -/

/-- Public capabilities (`gfx_core::Capabilities`), the fields this
factory reads. -/
structure Capabilities where
  constant_buffer_supported : Bool
  max_texture_size : Nat
  deriving DecidableEq, Repr

/-- Private GL capabilities (`gl::info::PrivateCaps`), the fields this
factory reads. -/
structure PrivateCaps where
  buffer_storage_supported : Bool
  immutable_storage_supported : Bool
  sampler_objects_supported : Bool
  deriving DecidableEq, Repr

/-! ## Texture descriptor types (`gfx_core::tex`) -/

/-- Channel type hint (`gfx_core::format::ChannelType`); only the
`Uint` default is distinguished by the factory. -/
inductive ChannelType where
  | Uint
  | Float
  deriving DecidableEq, Repr

/-- Modelled from the spec: texture kind, "dimensionality + size";
`get_dimensions` returns the spatial extent and `get_level_dimensions`
the extent of one mip level (halved per level, floored at 1), as in
`gfx_core::tex::Kind`, which is outside the provided source. -/
structure Kind where
  width : Nat
  height : Nat
  deriving DecidableEq, Repr

def Kind.get_dimensions (k : Kind) : Nat × Nat := (k.width, k.height)

def Kind.get_level_dimensions (k : Kind) (level : Nat) : Nat × Nat :=
  (max 1 (k.width >>> level), max 1 (k.height >>> level))

/-- Texture descriptor (`t::Descriptor`), the fields this factory
reads. -/
structure TexDescriptor where
  kind : Kind
  levels : Nat
  bind : Nat
  deriving DecidableEq, Repr

/-- Texture creation error (`t::Error`); the factory produces only the
`Size` variant itself, other native failures being propagated. -/
inductive TexError where
  | Size (dim : Nat)
  deriving DecidableEq, Repr

/-- Created texture object tag (`NewTexture` of the gl backend):
a sampled texture or a renderable surface, each holding a native
name. -/
inductive NewTexture where
  | Surface (name : Nat)
  | Texture (name : Nat)
  deriving DecidableEq, Repr

/-! ## Native call log and factory state -/

/-- One native call issued by the factory.  Buffer calls are raw GL
calls from `factory.rs`; the texture entries record the `tex` module
helpers (`make_with_storage`, `make_without_storage`, `make_surface`,
`init_texture_data`) invoked by `create_texture_raw`, each of which
allocates the given native name. -/
inductive GLCall where
  | GenBuffer (name : Nat)
  | BindBuffer (target : Nat) (buffer : Nat)
  | BufferStorage (target : Nat) (size : Nat) (flags : Nat)
  | BufferData (target : Nat) (size : Nat) (usageHint : Nat)
  | BufferSubData (target : Nat) (offset : Nat) (size : Nat) (data : List Nat)
  | MakeWithStorage (name : Nat) (desc : TexDescriptor) (cty : ChannelType)
  | MakeWithoutStorage (name : Nat) (desc : TexDescriptor) (cty : ChannelType)
  | MakeSurface (name : Nat) (desc : TexDescriptor) (cty : ChannelType)
  | InitTextureData (name : Nat) (desc : TexDescriptor) (cty : ChannelType)
      (data : List (List Nat))
  deriving DecidableEq, Repr

/-- Factory state: fresh-name counters, the log of native calls issued,
and the handle registry contents (a handle is an index into the
corresponding list). -/
structure FactoryState where
  nextBuffer : Nat
  nextTexture : Nat
  calls : List GLCall
  buffers : List (Nat × BufferInfo)
  textures : List (NewTexture × TexDescriptor)
  deriving DecidableEq, Repr

/-- Empty starting state. -/
def FactoryState.empty : FactoryState := ⟨0, 0, [], [], []⟩

/-! ## Buffer subsystem (`factory.rs` lines 35-54, 92-135, 208-231) -/

/-- Translation of `role_to_target` (factory.rs:35). -/
def role_to_target (role : BufferRole) : Nat :=
  match role with
  | .Vertex => ARRAY_BUFFER
  | .Index => ELEMENT_ARRAY_BUFFER
  | .Uniform => UNIFORM_BUFFER

/-- Translation of `update_sub_buffer` (factory.rs:43): bind the buffer
on the role-derived target and issue a sub-range write. -/
def update_sub_buffer (buffer : Nat) (data : List Nat) (size offset : Nat)
    (role : BufferRole) (s : FactoryState) : FactoryState :=
  let target := role_to_target role
  { s with calls := s.calls ++ [.BindBuffer target buffer,
                                .BufferSubData target offset size data] }

/-- Translation of `Factory::create_buffer_internal` (factory.rs:92):
generate a fresh native buffer name. -/
def create_buffer_internal (s : FactoryState) : Nat × FactoryState :=
  let name := s.nextBuffer
  (name, { s with nextBuffer := s.nextBuffer + 1,
                  calls := s.calls ++ [.GenBuffer name] })

/-- Translation of `Factory::init_buffer` (factory.rs:102): allocate
storage for the buffer, immutably via `BufferStorage` when the
buffer-storage extension is supported, else mutably via `BufferData`. -/
def init_buffer (pcaps : PrivateCaps) (buffer : Nat) (info : BufferInfo)
    (s : FactoryState) : FactoryState :=
  let target := role_to_target info.role
  if pcaps.buffer_storage_supported then
    let usage := match info.usage with
      | .GpuOnly => 0
      | _ => MAP_WRITE_BIT ||| DYNAMIC_STORAGE_BIT
    { s with calls := s.calls ++ [.BindBuffer target buffer,
                                  .BufferStorage target info.size usage] }
  else
    let usage := match info.usage with
      | .GpuOnly => STATIC_DRAW
      | .Const => STATIC_DRAW
      | .Dynamic => DYNAMIC_DRAW
      | .CpuOnly _ => STREAM_DRAW
    { s with calls := s.calls ++ [.BindBuffer target buffer,
                                  .BufferData target info.size usage] }

/-- Registration with the handle registry (`handles.make_buffer`):
returns the handle (index) of the newly registered buffer. -/
def make_buffer (name : Nat) (info : BufferInfo) (s : FactoryState) :
    Nat × FactoryState :=
  (s.buffers.length, { s with buffers := s.buffers ++ [(name, info)] })

/-- Translation of `Factory::create_buffer_raw` (factory.rs:208):
reject Uniform-role requests without constant-buffer capability, else
generate a name, initialize storage, and register the handle. -/
def create_buffer_raw (caps : Capabilities) (pcaps : PrivateCaps)
    (info : BufferInfo) (s : FactoryState) :
    Except BufferError Nat × FactoryState :=
  if !caps.constant_buffer_supported && info.role = BufferRole.Uniform then
    (.error .Other, s)
  else
    let (name, s1) := create_buffer_internal s
    let s2 := init_buffer pcaps name info s1
    let (h, s3) := make_buffer name info s2
    (.ok h, s3)

/-- Translation of `Factory::create_buffer_const_raw` (factory.rs:218):
generate a name, build a Const-usage `BufferInfo` sized to the data,
initialize storage, upload the data at offset 0, register the handle. -/
def create_buffer_const_raw (_caps : Capabilities) (pcaps : PrivateCaps)
    (data : List Nat) (stride : Nat) (role : BufferRole) (bind : Nat)
    (s : FactoryState) : Except BufferError Nat × FactoryState :=
  let (name, s1) := create_buffer_internal s
  let info : BufferInfo :=
    { role := role, usage := .Const, bind := bind,
      size := data.length, stride := stride }
  let s2 := init_buffer pcaps name info s1
  let s3 := update_sub_buffer name data data.length 0 role s2
  let (h, s4) := make_buffer name info s3
  (.ok h, s4)

/-! ## Texture subsystem (`factory.rs` lines 290-322) -/

/-- Registration with the handle registry (`handles.make_texture`):
returns the handle (index) of the newly registered texture object,
tagged `Texture` or `Surface` and paired with its descriptor. -/
def make_texture (obj : NewTexture) (desc : TexDescriptor)
    (s : FactoryState) : Nat × FactoryState :=
  (s.textures.length, { s with textures := s.textures ++ [(obj, desc)] })

/-- Translation of `Factory::create_texture_raw` (factory.rs:290):
reject zero levels, then oversize width, then oversize height; pick the
sampled-texture path when the bind flags request shader-resource or
unordered-access use or data is supplied, else the surface path.  The
`tex` module helpers (outside the provided source) are modelled as
native calls allocating a fresh texture name; their success path is
embedded, native allocation failure being propagated unchanged by the
source. -/
def create_texture_raw (caps : Capabilities) (pcaps : PrivateCaps)
    (desc : TexDescriptor) (hint : Option ChannelType)
    (data_opt : Option (List (List Nat))) (s : FactoryState) :
    Except TexError Nat × FactoryState :=
  if desc.levels = 0 then
    (.error (.Size 0), s)
  else
    let dim := desc.kind.get_dimensions
    let max_size := caps.max_texture_size
    if dim.1 > max_size then
      (.error (.Size dim.1), s)
    else if dim.2 > max_size then
      (.error (.Size dim.2), s)
    else
      let cty := hint.getD .Uint
      let name := s.nextTexture
      let s1 := { s with nextTexture := s.nextTexture + 1 }
      if intersects desc.bind (SHADER_RESOURCE ||| UNORDERED_ACCESS)
          || data_opt.isSome then
        let s2 :=
          if pcaps.immutable_storage_supported then
            { s1 with calls := s1.calls ++ [.MakeWithStorage name desc cty] }
          else
            { s1 with calls := s1.calls ++ [.MakeWithoutStorage name desc cty] }
        let s3 := match data_opt with
          | some data =>
            { s2 with calls := s2.calls ++ [.InitTextureData name desc cty data] }
          | none => s2
        let (h, s4) := make_texture (.Texture name) desc s3
        (.ok h, s4)
      else
        let s2 := { s1 with calls := s1.calls ++ [.MakeSurface name desc cty] }
        let (h, s3) := make_texture (.Surface name) desc s2
        (.ok h, s3)

/-! ## View derivation (`factory.rs` lines 167-176, 344-377) -/

/-- Target-view error (`f::TargetViewError`), the variant this factory
produces. -/
inductive TargetViewError where
  | Unsupported
  deriving DecidableEq, Repr

/-- Resource-view error (`f::ResourceViewError`), the variants this
factory produces. -/
inductive ResourceViewError where
  | NoBindFlag
  | Unsupported
  deriving DecidableEq, Repr

/-- Target view (`TargetView` of the gl backend). -/
inductive TargetView where
  | Surface (name : Nat)
  | Texture (name : Nat) (level : Nat)
  | TextureLayer (name : Nat) (level : Nat) (layer : Nat)
  deriving DecidableEq, Repr

/-- Shader-resource view (`ResourceView` of the gl backend);
`new_buffer` and `new_texture` constructors. -/
inductive ResourceView where
  | BufferView (name : Nat)
  | TextureView (name : Nat) (kind : Kind)
  deriving DecidableEq, Repr

/-- Translation of `Factory::view_texture_as_target` (factory.rs:167),
taking the registry-resolved texture object directly. -/
def view_texture_as_target (tex : NewTexture) (level : Nat)
    (layer : Option Nat) : Except TargetViewError TargetView :=
  match tex, layer with
  | .Surface _, some _ => .error .Unsupported
  | .Surface n, none =>
    if level ≠ 0 then .error .Unsupported else .ok (.Surface n)
  | .Texture t, some l => .ok (.TextureLayer t level l)
  | .Texture t, none => .ok (.Texture t level)

/-- Translation of `Factory::view_texture_as_shader_resource_raw`
(factory.rs:344), taking the registry-resolved texture object and the
kind stored in the handle's descriptor. -/
def view_texture_as_shader_resource_raw (tex : NewTexture) (kind : Kind) :
    Except ResourceViewError ResourceView :=
  match tex with
  | .Surface _ => .error .NoBindFlag
  | .Texture t => .ok (.TextureView t kind)

/-- Render-target view descriptor (`t::RenderDesc`), the fields this
factory reads. -/
structure RenderDesc where
  level : Nat
  layer : Option Nat
  deriving DecidableEq, Repr

/-- Depth-stencil view descriptor (`t::DepthStencilDesc`), the fields
this factory reads. -/
structure DepthStencilDesc where
  level : Nat
  layer : Option Nat
  deriving DecidableEq, Repr

/-- Translation of `Factory::view_texture_as_render_target_raw`
(factory.rs:361): the registered view carries the dimensions of the
requested level (`get_level_dimensions(desc.level)`). -/
def view_texture_as_render_target_raw (tex : NewTexture)
    (info : TexDescriptor) (desc : RenderDesc) :
    Except TargetViewError (TargetView × (Nat × Nat)) :=
  (view_texture_as_target tex desc.level desc.layer).map
    (fun view => (view, info.kind.get_level_dimensions desc.level))

/-- Translation of `Factory::view_texture_as_depth_stencil_raw`
(factory.rs:370): the registered view carries the dimensions of level 0
(`get_level_dimensions(0)`). -/
def view_texture_as_depth_stencil_raw (tex : NewTexture)
    (info : TexDescriptor) (desc : DepthStencilDesc) :
    Except TargetViewError (TargetView × (Nat × Nat)) :=
  (view_texture_as_target tex desc.level desc.layer).map
    (fun view => (view, info.kind.get_level_dimensions 0))

/-! ## Pipeline state assembler (`factory.rs` lines 245-288) -/

/-- Modelled from the spec: the slot-count constants of `gfx_core`
(`d::MAX_COLOR_TARGETS`, `d::MAX_VERTEX_ATTRIBUTES`) are outside the
provided source; the spec's "fixed maximum" slot arrays are given gfx's
published sizes. -/
def MAX_COLOR_TARGETS : Nat := 4

def MAX_VERTEX_ATTRIBUTES : Nat := 16

def MAX_VERTEX_BUFFERS : Nat := 16

instance : NeZero MAX_COLOR_TARGETS := ⟨by decide⟩

instance : NeZero MAX_VERTEX_ATTRIBUTES := ⟨by decide⟩

instance : NeZero MAX_VERTEX_BUFFERS := ⟨by decide⟩

/-- Comparison function (`state::Comparison`). -/
inductive Comparison where
  | Never
  | Less
  | LessEqual
  | Equal
  | GreaterEqual
  | Greater
  | NotEqual
  | Always
  deriving DecidableEq, Repr

/-- Stencil operation (`state::StencilOp`). -/
inductive StencilOp where
  | Keep
  | Zero
  | Replace
  | IncrementClamp
  | IncrementWrap
  | DecrementClamp
  | DecrementWrap
  | Invert
  deriving DecidableEq, Repr

/-- Per-face stencil state (`state::StencilSide`). -/
structure StencilSide where
  cmp : Comparison
  mask_read : Nat
  mask_write : Nat
  op_fail : StencilOp
  op_depth_fail : StencilOp
  op_pass : StencilOp
  deriving DecidableEq, Repr

/-- Modelled from the spec: the `Default` value of `state::StencilSide`
(in `gfx_core`, outside the provided source), the "neutral always-pass
configuration" used for a missing face. -/
def StencilSide.default : StencilSide :=
  { cmp := .Always, mask_read := 0xFF, mask_write := 0xFF,
    op_fail := .Keep, op_depth_fail := .Keep, op_pass := .Keep }

/-- Blend equation (`state::Equation`). -/
inductive Equation where
  | Add
  | Sub
  | RevSub
  | Min
  | Max
  deriving DecidableEq, Repr

/-- Blend value selector (`state::BlendValue`). -/
inductive BlendValue where
  | SourceColor
  | SourceAlpha
  | DestColor
  | DestAlpha
  | ConstColor
  | ConstAlpha
  deriving DecidableEq, Repr

/-- Blend factor (`state::Factor`). -/
inductive Factor where
  | Zero
  | One
  | SourceAlphaSaturated
  | ZeroPlus (v : BlendValue)
  | OnePlus (v : BlendValue)
  deriving DecidableEq, Repr

/-- One blend channel (`state::BlendChannel`). -/
structure BlendChannel where
  equation : Equation
  source : Factor
  destination : Factor
  deriving DecidableEq, Repr

/-- Modelled from the spec: the `Default` value of
`state::BlendChannel` (in `gfx_core`, outside the provided source), the
"identity/no-op blend value" used for a missing factor. -/
def BlendChannel.default : BlendChannel :=
  { equation := .Add, source := .One, destination := .Zero }

/-- Attached blend state (`state::Blend`). -/
structure Blend where
  color : BlendChannel
  alpha : BlendChannel
  deriving DecidableEq, Repr

/-- Depth test state (`state::Depth`). -/
structure Depth where
  cmp : Comparison
  write : Bool
  deriving DecidableEq, Repr

/-- Built stencil record (`state::Stencil`). -/
structure Stencil where
  front : StencilSide
  back : StencilSide
  deriving DecidableEq, Repr

/-- Depth/stencil part of the pipeline descriptor
(`pso::DepthStencilInfo`): optional depth state and optional per-face
stencil state.  The source destructures the paired format away
(factory.rs:251). -/
structure DepthStencilInfo where
  depth : Option Depth
  front : Option StencilSide
  back : Option StencilSide
  deriving DecidableEq, Repr

/-- Color-target part of the pipeline descriptor (`pso::ColorInfo`):
write mask and optional blend factors.  The source destructures the
paired format away (factory.rs:261). -/
structure ColorInfo where
  mask : Nat
  color : Option BlendChannel
  alpha : Option BlendChannel
  deriving DecidableEq, Repr

/-- Per-target color state of the gl backend's output merger, the
fields written by factory.rs:263-268. -/
structure ColorState where
  mask : Nat
  blend : Option Blend
  deriving DecidableEq, Repr

/-- Modelled from the spec: `command::COLOR_DEFAULT` of the gl backend
(outside the provided source), the initial value of every color slot:
full write mask, no blend. -/
def COLOR_DEFAULT : ColorState := { mask := 0xF, blend := none }

/-- Output-merger record of the gl backend (`OutputMerger`), as
populated by `create_pipeline_state_raw`. -/
structure OutputMerger where
  draw_mask : Nat
  stencil : Option Stencil
  depth : Option Depth
  colors : Fin MAX_COLOR_TARGETS → ColorState

/-- Vertex attribute element (`format::Element`), carried through
untouched by the assembler. -/
structure Element where
  format : Nat
  offset : Nat
  deriving DecidableEq, Repr

/-- Vertex-buffer binding description (stride/rate), carried through
untouched by the assembler. -/
structure VertexBufferDesc where
  stride : Nat
  rate : Nat
  deriving DecidableEq, Repr

/-- Resolved attribute of the gl backend (`BufferElement`): the
referenced vertex-buffer binding paired with the attribute element. -/
structure BufferElement where
  desc : VertexBufferDesc
  elem : Element
  deriving DecidableEq, Repr

/-- Pipeline descriptor (`pso::Descriptor`), the fields this factory
reads; primitive and rasterizer state are carried through untouched and
modelled opaquely as `Nat`. -/
structure PsoDescriptor where
  primitive : Nat
  rasterizer : Nat
  scissor : Bool
  depth_stencil : Option DepthStencilInfo
  color_targets : Fin MAX_COLOR_TARGETS → Option ColorInfo
  vertex_buffers : Fin MAX_VERTEX_BUFFERS → Option VertexBufferDesc
  attributes : Fin MAX_VERTEX_ATTRIBUTES → Option (Nat × Element)

/-- Indexing `desc.color_targets[i]` by a plain loop counter, as in the
source's `for i in 0 .. d::MAX_COLOR_TARGETS` (factory.rs:260). -/
def colorTargetAt (desc : PsoDescriptor) (i : Nat) : Option ColorInfo :=
  if h : i < MAX_COLOR_TARGETS then desc.color_targets ⟨i, h⟩ else none

/-- Translation of the output-merger construction of
`create_pipeline_state_raw` (factory.rs:248-271): the `draw_mask` and
per-slot loop is rendered as a fold over the slot indices, unpopulated
slots keeping their initial `COLOR_DEFAULT`. -/
def assemble_output_merger (desc : PsoDescriptor) : OutputMerger :=
  { draw_mask :=
      (List.range MAX_COLOR_TARGETS).foldl
        (fun m i =>
          if (colorTargetAt desc i).isSome then m ||| (1 <<< i) else m) 0,
    stencil :=
      match desc.depth_stencil with
      | some t =>
        if t.front.isSome || t.back.isSome then
          some { front := t.front.getD StencilSide.default,
                 back := t.back.getD StencilSide.default }
        else none
      | none => none,
    depth := desc.depth_stencil.bind (fun t => t.depth),
    colors := fun i =>
      match desc.color_targets i with
      | some bi =>
        { mask := bi.mask,
          blend :=
            if bi.color.isSome || bi.alpha.isSome then
              some { color := bi.color.getD BlendChannel.default,
                     alpha := bi.alpha.getD BlendChannel.default }
            else none }
      | none => COLOR_DEFAULT }

/-- Lookup of `desc.vertex_buffers[slot]` (factory.rs:275).  An
out-of-range slot index panics in the source just as `unwrap` of an
unpopulated slot does; both are mapped to `none` here. -/
def vertex_buffer_lookup (desc : PsoDescriptor) (slot : Nat) :
    Option VertexBufferDesc :=
  if h : slot < MAX_VERTEX_BUFFERS then desc.vertex_buffers ⟨slot, h⟩
  else none

/-- Resolution of one attribute slot (factory.rs:274-277): outer `none`
models the `unwrap` panic on an attribute referencing an unpopulated
vertex-buffer slot; inner value is the `inputs[i]` entry. -/
def resolve_attribute (desc : PsoDescriptor)
    (i : Fin MAX_VERTEX_ATTRIBUTES) : Option (Option BufferElement) :=
  match desc.attributes i with
  | none => some none
  | some a =>
    (vertex_buffer_lookup desc a.1).map
      (fun vb => some { desc := vb, elem := a.2 })

/-- Assembled pipeline state of the gl backend (`PipelineState`). -/
structure PipelineState where
  program : Nat
  primitive : Nat
  input : Fin MAX_VERTEX_ATTRIBUTES → Option BufferElement
  scissor : Bool
  rasterizer : Nat
  output : OutputMerger

/-- Translation of `Factory::create_pipeline_state_raw`
(factory.rs:245): `none` models the `unwrap` panic on a malformed
descriptor; the source otherwise always returns `Ok` of the registered
pipeline state. -/
def create_pipeline_state_raw (program : Nat) (desc : PsoDescriptor) :
    Option PipelineState :=
  let output := assemble_output_merger desc
  if h : ∀ i, (resolve_attribute desc i).isSome then
    some { program := program, primitive := desc.primitive,
           input := fun i => (resolve_attribute desc i).get (h i),
           scissor := desc.scissor, rasterizer := desc.rasterizer,
           output := output }
  else none

/-! ## Concrete fixtures used by witnesses and counterexamples -/

/-- Capability set without constant-buffer support. -/
def capsNoCB : Capabilities :=
  { constant_buffer_supported := false, max_texture_size := 1024 }

/-- Private capability set with no optional extension. -/
def pcapsNone : PrivateCaps :=
  { buffer_storage_supported := false, immutable_storage_supported := false,
    sampler_objects_supported := false }

/-- Uniform-role buffer descriptor. -/
def uniformInfo : BufferInfo :=
  { role := .Uniform, usage := .Dynamic, bind := 0, size := 64, stride := 4 }

/-- Vertex-role Dynamic buffer descriptor of size 256 (the spec's
scenario). -/
def vertexDynInfo : BufferInfo :=
  { role := .Vertex, usage := .Dynamic, bind := 0, size := 256, stride := 16 }

/-- Pipeline descriptor of the spec's scenario: one populated color
slot with full write mask and a "one" color blend factor, no
depth/stencil, no attributes. -/
def descScenario : PsoDescriptor :=
  { primitive := 0, rasterizer := 0, scissor := false,
    depth_stencil := none,
    color_targets := fun i =>
      if i.val = 0 then
        some { mask := 0xF,
               color := some { equation := .Add, source := .One,
                               destination := .Zero },
               alpha := none }
      else none,
    vertex_buffers := fun _ => none,
    attributes := fun _ => none }

/-- Pipeline descriptor with one attribute referencing the populated
vertex-buffer slot 0. -/
def descAttr : PsoDescriptor :=
  { primitive := 0, rasterizer := 0, scissor := false,
    depth_stencil := none,
    color_targets := fun _ => none,
    vertex_buffers := fun i =>
      if i.val = 0 then some { stride := 16, rate := 0 } else none,
    attributes := fun i =>
      if i.val = 0 then some (0, { format := 0, offset := 0 }) else none }

/-! ## Claims -/

/-- C1, counterexample: with the constant-buffer capability absent, a
Uniform-role `create_buffer` request returns `BufferError.Other` — not
the `Unsupported` error the claim names. -/
theorem C1_counterexample :
    (create_buffer_raw capsNoCB pcapsNone uniformInfo FactoryState.empty).1
      = Except.error BufferError.Other
    ∧ BufferError.Other ≠ BufferError.Unsupported :=
  ⟨rfl, by decide⟩

/-- C1 (amended): for every buffer descriptor with role Uniform, if the
device context's constant-buffer capability is absent, `create_buffer`
returns the error `Other` and performs no native buffer allocation —
the state, hence the call log, the name counter and the handle
registry, is untouched. -/
theorem C1_create_buffer_uniform_rejected (caps : Capabilities)
    (pcaps : PrivateCaps) (info : BufferInfo) (s : FactoryState)
    (hcap : caps.constant_buffer_supported = false)
    (hrole : info.role = BufferRole.Uniform) :
    create_buffer_raw caps pcaps info s = (Except.error BufferError.Other, s) := by
  simp [create_buffer_raw, hcap, hrole]

/-- C1 witness: the amended theorem applied at a concrete Uniform
request against a context without constant-buffer support. -/
theorem C1_create_buffer_uniform_rejected_witness :
    create_buffer_raw capsNoCB pcapsNone uniformInfo FactoryState.empty
      = (Except.error BufferError.Other, FactoryState.empty) :=
  C1_create_buffer_uniform_rejected capsNoCB pcapsNone uniformInfo
    FactoryState.empty rfl rfl

/-- C2, counterexample: with the constant-buffer capability absent, a
Uniform-role `create_buffer_with_data` request succeeds even though the
corresponding `create_buffer` request is rejected — the claimed "same
as create_buffer, including rejecting a Uniform role" is false. -/
theorem C2_counterexample :
    ((create_buffer_const_raw capsNoCB pcapsNone [1, 2, 3, 4] 4
        BufferRole.Uniform 0 FactoryState.empty).1).isOk = true
    ∧ ((create_buffer_raw capsNoCB pcapsNone
        { role := .Uniform, usage := .Const, bind := 0, size := 4, stride := 4 }
        FactoryState.empty).1).isOk = false :=
  ⟨rfl, rfl⟩

/-- C2 (amended): for every input, `create_buffer_with_data` behaves as
`create_buffer` would with the constant-buffer capability present and
usage forced to Const (size the byte length) — so it performs no
Uniform-role capability check — and additionally uploads exactly the
given bytes via a sub-range write at offset 0 into the just-created
storage, on the binding point derived from role (Vertex to array,
Index to element-array, Uniform to uniform). -/
theorem C2_create_buffer_const_refines (caps : Capabilities)
    (pcaps : PrivateCaps) (data : List Nat) (stride : Nat)
    (role : BufferRole) (bind : Nat) (s : FactoryState) :
    let info : BufferInfo :=
      { role := role, usage := .Const, bind := bind,
        size := data.length, stride := stride }
    let rc := create_buffer_const_raw caps pcaps data stride role bind s
    let rb := create_buffer_raw { caps with constant_buffer_supported := true }
      pcaps info s
    rc.1 = rb.1
    ∧ rc.2.nextBuffer = rb.2.nextBuffer
    ∧ rc.2.buffers = rb.2.buffers
    ∧ rc.2.textures = rb.2.textures
    ∧ rc.2.calls = rb.2.calls
        ++ [.BindBuffer (role_to_target role) s.nextBuffer,
            .BufferSubData (role_to_target role) 0 data.length data]
    ∧ role_to_target .Vertex = ARRAY_BUFFER
    ∧ role_to_target .Index = ELEMENT_ARRAY_BUFFER
    ∧ role_to_target .Uniform = UNIFORM_BUFFER := by
  cases hbs : pcaps.buffer_storage_supported <;>
    simp [create_buffer_const_raw, create_buffer_raw, create_buffer_internal,
          init_buffer, update_sub_buffer, make_buffer, hbs, role_to_target]

/-- C3: storage initialization picks its path from the buffer-storage
capability — immutable `BufferStorage` of `info.size` bytes with
host-writable bits (zero for GpuOnly) when the extension is supported,
else mutable `BufferData` with a static / dynamic / streaming usage
hint derived from the usage class. -/
theorem C3_init_buffer_paths (pcaps : PrivateCaps) (buffer : Nat)
    (info : BufferInfo) (s : FactoryState) :
    (pcaps.buffer_storage_supported = true → info.usage = .GpuOnly →
      init_buffer pcaps buffer info s = { s with calls := s.calls
        ++ [.BindBuffer (role_to_target info.role) buffer,
            .BufferStorage (role_to_target info.role) info.size 0] })
    ∧ (pcaps.buffer_storage_supported = true → info.usage ≠ .GpuOnly →
      init_buffer pcaps buffer info s = { s with calls := s.calls
        ++ [.BindBuffer (role_to_target info.role) buffer,
            .BufferStorage (role_to_target info.role) info.size
              (MAP_WRITE_BIT ||| DYNAMIC_STORAGE_BIT)] })
    ∧ (pcaps.buffer_storage_supported = false →
       (info.usage = .GpuOnly ∨ info.usage = .Const) →
      init_buffer pcaps buffer info s = { s with calls := s.calls
        ++ [.BindBuffer (role_to_target info.role) buffer,
            .BufferData (role_to_target info.role) info.size STATIC_DRAW] })
    ∧ (pcaps.buffer_storage_supported = false → info.usage = .Dynamic →
      init_buffer pcaps buffer info s = { s with calls := s.calls
        ++ [.BindBuffer (role_to_target info.role) buffer,
            .BufferData (role_to_target info.role) info.size DYNAMIC_DRAW] })
    ∧ (pcaps.buffer_storage_supported = false →
       (∃ a, info.usage = .CpuOnly a) →
      init_buffer pcaps buffer info s = { s with calls := s.calls
        ++ [.BindBuffer (role_to_target info.role) buffer,
            .BufferData (role_to_target info.role) info.size STREAM_DRAW] }) := by
  refine ⟨?_, ?_, ?_, ?_, ?_⟩ <;> intro hbs hu
  · simp [init_buffer, hbs, hu]
  · cases h : info.usage <;> simp_all [init_buffer]
  · rcases hu with h | h <;> simp [init_buffer, hbs, h]
  · simp [init_buffer, hbs, hu]
  · rcases hu with ⟨a, h⟩; simp [init_buffer, hbs, h]

/-- C3 witness: the spec's scenario — a Vertex-role Dynamic buffer of
size 256 with the buffer-storage capability absent gets a mutable
`BufferData` allocation with the dynamic usage hint. -/
theorem C3_init_buffer_paths_witness :
    init_buffer pcapsNone 0 vertexDynInfo FactoryState.empty
      = { FactoryState.empty with calls :=
            [.BindBuffer ARRAY_BUFFER 0, .BufferData ARRAY_BUFFER 256 DYNAMIC_DRAW] } := by
  have h := (C3_init_buffer_paths pcapsNone 0 vertexDynInfo
    FactoryState.empty).2.2.2.1 rfl rfl
  simpa using h

/-- C4: `create_texture` returns `Size 0` for a zero level count
(whatever the capabilities say), then `Size width` when the width
exceeds the capability-reported maximum, then `Size height` when the
height does, all without touching the state; only descriptors passing
both checks proceed to native creation (the result is a registered
handle and a native texture name is consumed). -/
theorem C4_create_texture_size_checks (caps : Capabilities)
    (pcaps : PrivateCaps) (desc : TexDescriptor) (hint : Option ChannelType)
    (data : Option (List (List Nat))) (s : FactoryState) :
    (desc.levels = 0 →
      create_texture_raw caps pcaps desc hint data s
        = (Except.error (TexError.Size 0), s))
    ∧ (desc.levels ≠ 0 → desc.kind.width > caps.max_texture_size →
      create_texture_raw caps pcaps desc hint data s
        = (Except.error (TexError.Size desc.kind.width), s))
    ∧ (desc.levels ≠ 0 → desc.kind.width ≤ caps.max_texture_size →
       desc.kind.height > caps.max_texture_size →
      create_texture_raw caps pcaps desc hint data s
        = (Except.error (TexError.Size desc.kind.height), s))
    ∧ (desc.levels ≠ 0 → desc.kind.width ≤ caps.max_texture_size →
       desc.kind.height ≤ caps.max_texture_size →
      (create_texture_raw caps pcaps desc hint data s).1
          = Except.ok s.textures.length
        ∧ (create_texture_raw caps pcaps desc hint data s).2.nextTexture
          = s.nextTexture + 1) := by
  refine ⟨?_, ?_, ?_, ?_⟩
  · intro h
    simp [create_texture_raw, h]
  · intro h hw
    simp [create_texture_raw, h, Kind.get_dimensions, hw]
  · intro h hw hh
    simp [create_texture_raw, h, Kind.get_dimensions, Nat.not_lt.mpr hw, hh]
  · intro h hw hh
    cases data <;>
      cases hims : pcaps.immutable_storage_supported <;>
        simp [create_texture_raw, h, Kind.get_dimensions, Nat.not_lt.mpr hw,
              Nat.not_lt.mpr hh, make_texture, hims] <;>
        split <;> simp [make_texture]

/-- C4 witness: a descriptor with zero levels is rejected with
`Size 0`, and a 2048-wide descriptor against a 1024 maximum is rejected
with `Size 2048`. -/
theorem C4_create_texture_size_checks_witness :
    create_texture_raw capsNoCB pcapsNone ⟨⟨4, 4⟩, 0, 0⟩ none none
        FactoryState.empty
      = (Except.error (TexError.Size 0), FactoryState.empty)
    ∧ create_texture_raw capsNoCB pcapsNone ⟨⟨2048, 4⟩, 1, 0⟩ none none
        FactoryState.empty
      = (Except.error (TexError.Size 2048), FactoryState.empty) :=
  ⟨(C4_create_texture_size_checks capsNoCB pcapsNone ⟨⟨4, 4⟩, 0, 0⟩ none none
      FactoryState.empty).1 rfl,
   (C4_create_texture_size_checks capsNoCB pcapsNone ⟨⟨2048, 4⟩, 1, 0⟩ none none
      FactoryState.empty).2.1 (by decide) (by decide)⟩

/-- C5: for a descriptor passing the size checks, `create_texture`
creates and registers a sampled `Texture` object exactly when the bind
flags request shader-resource or unordered-access use or data is
supplied — allocating via immutable storage when the capability is
present, else the mutable fallback, and uploading the supplied data
right after allocation — and a renderable `Surface` object otherwise,
the registered entry being tagged accordingly. -/
theorem C5_create_texture_object_paths (caps : Capabilities)
    (pcaps : PrivateCaps) (desc : TexDescriptor) (hint : Option ChannelType)
    (data : Option (List (List Nat))) (s : FactoryState)
    (hlev : desc.levels ≠ 0)
    (hw : desc.kind.width ≤ caps.max_texture_size)
    (hh : desc.kind.height ≤ caps.max_texture_size) :
    let cty := hint.getD .Uint
    let name := s.nextTexture
    let sampled := intersects desc.bind (SHADER_RESOURCE ||| UNORDERED_ACCESS)
      || data.isSome
    let r := create_texture_raw caps pcaps desc hint data s
    r.1 = Except.ok s.textures.length
    ∧ r.2.textures = s.textures
        ++ [(if sampled then NewTexture.Texture name else NewTexture.Surface name,
             desc)]
    ∧ r.2.calls = s.calls
        ++ (if sampled then
              (if pcaps.immutable_storage_supported then
                 [GLCall.MakeWithStorage name desc cty]
               else [GLCall.MakeWithoutStorage name desc cty])
              ++ (match data with
                  | some d => [GLCall.InitTextureData name desc cty d]
                  | none => [])
            else [GLCall.MakeSurface name desc cty]) := by
  cases data <;>
    cases hims : pcaps.immutable_storage_supported <;>
      simp [create_texture_raw, hlev, Kind.get_dimensions, Nat.not_lt.mpr hw,
            Nat.not_lt.mpr hh, make_texture, hims] <;>
      split <;> simp [make_texture]

/-- C5 witness: a shader-resource-bound descriptor yields a registered
`Texture` via the mutable fallback, and a bare render-target descriptor
yields a registered `Surface`. -/
theorem C5_create_texture_object_paths_witness :
    ((create_texture_raw capsNoCB pcapsNone ⟨⟨16, 16⟩, 1, SHADER_RESOURCE⟩
        none none FactoryState.empty).2.textures
      = [(NewTexture.Texture 0, ⟨⟨16, 16⟩, 1, SHADER_RESOURCE⟩)])
    ∧ ((create_texture_raw capsNoCB pcapsNone ⟨⟨16, 16⟩, 1, RENDER_TARGET⟩
        none none FactoryState.empty).2.textures
      = [(NewTexture.Surface 0, ⟨⟨16, 16⟩, 1, RENDER_TARGET⟩)]) := by
  have h1 := (C5_create_texture_object_paths capsNoCB pcapsNone
    ⟨⟨16, 16⟩, 1, SHADER_RESOURCE⟩ none none FactoryState.empty
    (by decide) (by decide) (by decide)).2.1
  have h2 := (C5_create_texture_object_paths capsNoCB pcapsNone
    ⟨⟨16, 16⟩, 1, RENDER_TARGET⟩ none none FactoryState.empty
    (by decide) (by decide) (by decide)).2.1
  exact ⟨by simpa using h1, by simpa using h2⟩

/-- C6: deriving a shader-resource view fails with `NoBindFlag` over a
`Surface` object and succeeds — returning the texture view — over a
`Texture` object. -/
theorem C6_shader_resource_view (tex : NewTexture) (kind : Kind) :
    (∀ n, tex = NewTexture.Surface n →
      view_texture_as_shader_resource_raw tex kind
        = Except.error ResourceViewError.NoBindFlag)
    ∧ (∀ n, tex = NewTexture.Texture n →
      view_texture_as_shader_resource_raw tex kind
        = Except.ok (ResourceView.TextureView n kind)) := by
  constructor <;> rintro n rfl <;> rfl

/-- C6 witness: the two cases at concrete objects. -/
theorem C6_shader_resource_view_witness :
    view_texture_as_shader_resource_raw (NewTexture.Surface 3) ⟨16, 16⟩
      = Except.error ResourceViewError.NoBindFlag
    ∧ view_texture_as_shader_resource_raw (NewTexture.Texture 5) ⟨16, 16⟩
      = Except.ok (ResourceView.TextureView 5 ⟨16, 16⟩) :=
  ⟨(C6_shader_resource_view (NewTexture.Surface 3) ⟨16, 16⟩).1 3 rfl,
   (C6_shader_resource_view (NewTexture.Texture 5) ⟨16, 16⟩).2 5 rfl⟩

/-- C7: a render-target / depth-stencil view over a `Surface` succeeds
exactly at level 0 with no layer (failing with `Unsupported`
otherwise), while over a `Texture` it always succeeds — a layered
view of the given level and layer when a layer is given, a whole-level
view otherwise. -/
theorem C7_target_view (tex : NewTexture) (level : Nat) (layer : Option Nat) :
    (∀ n, tex = NewTexture.Surface n →
      ((view_texture_as_target tex level layer).isOk
          ↔ (level = 0 ∧ layer = none))
      ∧ (level = 0 → layer = none →
          view_texture_as_target tex level layer = Except.ok (TargetView.Surface n))
      ∧ (¬(level = 0 ∧ layer = none) →
          view_texture_as_target tex level layer
            = Except.error TargetViewError.Unsupported))
    ∧ (∀ n, tex = NewTexture.Texture n →
      view_texture_as_target tex level layer
        = Except.ok (match layer with
                     | some l => TargetView.TextureLayer n level l
                     | none => TargetView.Texture n level)) := by
  constructor
  · rintro n rfl
    refine ⟨?_, ?_, ?_⟩
    · cases layer <;> by_cases h : level = 0 <;>
        simp [view_texture_as_target, h, Except.isOk, Except.toBool]
    · rintro rfl rfl; rfl
    · intro h
      cases layer <;> by_cases hl : level = 0 <;>
        simp_all [view_texture_as_target]
  · rintro n rfl
    cases layer <;> rfl

/-- C7 witness: over a concrete `Surface`, level 0 with no layer
succeeds and level 1 fails with `Unsupported`; over a concrete
`Texture`, level 1 with layer 2 yields the layered view. -/
theorem C7_target_view_witness :
    view_texture_as_target (NewTexture.Surface 3) 0 none
      = Except.ok (TargetView.Surface 3)
    ∧ view_texture_as_target (NewTexture.Surface 3) 1 none
      = Except.error TargetViewError.Unsupported
    ∧ view_texture_as_target (NewTexture.Texture 5) 1 (some 2)
      = Except.ok (TargetView.TextureLayer 5 1 2) :=
  ⟨((C7_target_view (NewTexture.Surface 3) 0 none).1 3 rfl).2.1 rfl rfl,
   ((C7_target_view (NewTexture.Surface 3) 1 none).1 3 rfl).2.2 (by decide),
   (C7_target_view (NewTexture.Texture 5) 1 (some 2)).2 5 rfl⟩

/-- C10: over a `Texture`, the dimensions registered with a
render-target view are those of the requested mip level, while the
dimensions registered with a depth-stencil view are those of mip level
0 whatever level is requested; at an 8-by-8 texture and level 1 the two
recorded dimensions differ. -/
theorem C10_target_view_dimensions (n : Nat) (info : TexDescriptor)
    (rdesc : RenderDesc) (ddesc : DepthStencilDesc) :
    (view_texture_as_render_target_raw (NewTexture.Texture n) info rdesc).map
        Prod.snd
      = Except.ok (info.kind.get_level_dimensions rdesc.level)
    ∧ (view_texture_as_depth_stencil_raw (NewTexture.Texture n) info ddesc).map
        Prod.snd
      = Except.ok (info.kind.get_level_dimensions 0)
    ∧ (view_texture_as_render_target_raw (NewTexture.Texture 0)
          ⟨⟨8, 8⟩, 4, 0⟩ ⟨1, none⟩).map Prod.snd = Except.ok (4, 4)
    ∧ (view_texture_as_depth_stencil_raw (NewTexture.Texture 0)
          ⟨⟨8, 8⟩, 4, 0⟩ ⟨1, none⟩).map Prod.snd = Except.ok (8, 8)
    ∧ ((4, 4) : Nat × Nat) ≠ (8, 8) := by
  refine ⟨?_, ?_, rfl, rfl, by decide⟩
  · cases h : rdesc.layer <;>
      simp [view_texture_as_render_target_raw, view_texture_as_target, h,
            Except.map]
  · cases h : ddesc.layer <;>
      simp [view_texture_as_depth_stencil_raw, view_texture_as_target, h,
            Except.map]

/-- C10 witness: the theorem applied at a concrete 8-by-8 texture and
level 1 — the render-target view records the level-1 dimensions. -/
theorem C10_target_view_dimensions_witness :
    (view_texture_as_render_target_raw (NewTexture.Texture 0)
        ⟨⟨8, 8⟩, 4, 0⟩ ⟨1, none⟩).map Prod.snd = Except.ok (4, 4) :=
  (C10_target_view_dimensions 0 ⟨⟨8, 8⟩, 4, 0⟩ ⟨1, none⟩ ⟨0, none⟩).2.2.1

/-- Loop indexing agrees with direct slot indexing inside the slot
range. -/
theorem colorTargetAt_eq (desc : PsoDescriptor) (i : Fin MAX_COLOR_TARGETS) :
    colorTargetAt desc i.val = desc.color_targets i := by
  simp [colorTargetAt, i.isLt]

/-- Bit `i` of the assembled draw mask records whether color-target
slot `i` is populated. -/
theorem draw_mask_testBit (desc : PsoDescriptor) (i : Fin MAX_COLOR_TARGETS) :
    (assemble_output_merger desc).draw_mask.testBit i.val
      = (desc.color_targets i).isSome := by
  rw [← colorTargetAt_eq desc i]
  have hr : List.range MAX_COLOR_TARGETS = [0, 1, 2, 3] := rfl
  fin_cases i <;>
    cases h0 : (colorTargetAt desc 0).isSome <;>
    cases h1 : (colorTargetAt desc 1).isSome <;>
    cases h2 : (colorTargetAt desc 2).isSome <;>
    cases h3 : (colorTargetAt desc 3).isSome <;>
      simp [assemble_output_merger, hr, h0, h1, h2, h3] <;> decide

/-- C8: in the assembled output-merger record, the draw-mask bit of a
slot is set exactly when the descriptor populates the slot; a populated
slot copies its write mask and carries blend state exactly when a color
or alpha factor is specified (missing factors defaulting to the
identity blend channel); an unpopulated slot keeps the default color
state; a stencil record exists exactly when the descriptor supplies
stencil state on the front or back face (a missing face defaulting to
the always-pass side); depth state is copied independently of stencil;
and every assembled pipeline state carries exactly this record. -/
theorem C8_output_merger (desc : PsoDescriptor) :
    let om := assemble_output_merger desc
    (∀ i : Fin MAX_COLOR_TARGETS,
      om.draw_mask.testBit i.val = (desc.color_targets i).isSome)
    ∧ (∀ i bi, desc.color_targets i = some bi →
        (om.colors i).mask = bi.mask
        ∧ ((om.colors i).blend.isSome ↔ (bi.color.isSome ∨ bi.alpha.isSome))
        ∧ (bi.color.isSome ∨ bi.alpha.isSome →
            (om.colors i).blend
              = some { color := bi.color.getD BlendChannel.default,
                       alpha := bi.alpha.getD BlendChannel.default }))
    ∧ (∀ i, desc.color_targets i = none → om.colors i = COLOR_DEFAULT)
    ∧ (om.stencil.isSome
        ↔ ∃ t, desc.depth_stencil = some t ∧ (t.front.isSome ∨ t.back.isSome))
    ∧ (∀ t, desc.depth_stencil = some t → t.front.isSome ∨ t.back.isSome →
        om.stencil = some { front := t.front.getD StencilSide.default,
                            back := t.back.getD StencilSide.default })
    ∧ om.depth = desc.depth_stencil.bind (fun t => t.depth)
    ∧ (∀ p ps, create_pipeline_state_raw p desc = some ps → ps.output = om) := by
  refine ⟨draw_mask_testBit desc, ?_, ?_, ?_, ?_, rfl, ?_⟩
  · intro i bi h
    refine ⟨by simp [assemble_output_merger, h], ?_, ?_⟩
    · by_cases hc : bi.color.isSome ∨ bi.alpha.isSome
      · rcases hc with hc | hc <;>
          simp [assemble_output_merger, h, hc]
      · push_neg at hc
        simp [assemble_output_merger, h, Option.not_isSome_iff_eq_none.mp hc.1,
              Option.not_isSome_iff_eq_none.mp hc.2]
    · intro hc
      rcases hc with hc | hc <;> simp [assemble_output_merger, h, hc]
  · intro i h
    simp [assemble_output_merger, h]
  · cases hds : desc.depth_stencil with
    | none => simp [assemble_output_merger, hds]
    | some t =>
      by_cases hfb : t.front.isSome ∨ t.back.isSome
      · rcases hfb with hfb | hfb <;>
          simp [assemble_output_merger, hds, hfb]
      · push_neg at hfb
        simp [assemble_output_merger, hds,
              Option.not_isSome_iff_eq_none.mp hfb.1,
              Option.not_isSome_iff_eq_none.mp hfb.2]
  · intro t hds hfb
    rcases hfb with hfb | hfb <;> simp [assemble_output_merger, hds, hfb]
  · intro p ps h
    simp only [create_pipeline_state_raw] at h
    split at h
    · cases h; rfl
    · cases h

/-- C8 witness: the spec's scenario — draw-mask bit 0 set and the other
bits clear, blend present on slot 0 with the defaulted alpha channel,
stencil absent, depth absent. -/
theorem C8_output_merger_witness :
    (assemble_output_merger descScenario).draw_mask.testBit 0 = true
    ∧ (assemble_output_merger descScenario).draw_mask.testBit 1 = false
    ∧ ((assemble_output_merger descScenario).colors 0).blend
        = some { color := { equation := .Add, source := .One,
                            destination := .Zero },
                 alpha := BlendChannel.default }
    ∧ (assemble_output_merger descScenario).stencil = none
    ∧ (assemble_output_merger descScenario).depth = none := by
  have h := C8_output_merger descScenario
  refine ⟨?_, ?_, ?_, ?_, ?_⟩
  · rw [show (0 : Nat) = (0 : Fin MAX_COLOR_TARGETS).val from rfl, h.1 0]
    rfl
  · rw [show (1 : Nat) = (1 : Fin MAX_COLOR_TARGETS).val from rfl, h.1 1]
    rfl
  · exact (h.2.1 0
      { mask := 0xF,
        color := some { equation := .Add, source := .One, destination := .Zero },
        alpha := none } rfl).2.2 (Or.inl rfl)
  · cases hs : (assemble_output_merger descScenario).stencil with
    | none => rfl
    | some v =>
      obtain ⟨t, ht, -⟩ := h.2.2.2.1.mp (by simp [hs])
      simp [descScenario] at ht
  · simpa [descScenario] using h.2.2.2.2.2.1

/-- C9: when every defined attribute references a populated
vertex-buffer slot, pipeline assembly succeeds — the fatal `unwrap`
path is unreachable — and each resolved attribute is paired with
exactly the stride/rate description of the vertex-buffer binding it
references; a descriptor violating the precondition hits the fatal
path (modelled as `none`) rather than a recoverable error. -/
theorem C9_attribute_resolution (program : Nat) (desc : PsoDescriptor) :
    ((∀ i a, desc.attributes i = some a →
        (vertex_buffer_lookup desc a.1).isSome) →
      ∃ ps, create_pipeline_state_raw program desc = some ps
        ∧ (∀ i a, desc.attributes i = some a →
            ∃ vb, vertex_buffer_lookup desc a.1 = some vb
              ∧ ps.input i = some { desc := vb, elem := a.2 })
        ∧ (∀ i, desc.attributes i = none → ps.input i = none))
    ∧ ((∃ i a, desc.attributes i = some a
          ∧ vertex_buffer_lookup desc a.1 = none) →
      create_pipeline_state_raw program desc = none) := by
  constructor
  · intro hall
    have hres : ∀ i, (resolve_attribute desc i).isSome = true := by
      intro i
      cases ha : desc.attributes i with
      | none => simp [resolve_attribute, ha]
      | some a =>
        have hs := hall i a ha
        cases hl : vertex_buffer_lookup desc a.1 with
        | none => rw [hl] at hs; cases hs
        | some vb => simp [resolve_attribute, ha, hl]
    simp only [create_pipeline_state_raw]
    rw [dif_pos hres]
    refine ⟨_, rfl, ?_, ?_⟩
    · intro i a ha
      have hs := hall i a ha
      cases hl : vertex_buffer_lookup desc a.1 with
      | none => rw [hl] at hs; cases hs
      | some vb =>
        exact ⟨vb, rfl, by simp [resolve_attribute, ha, hl]⟩
    · intro i ha
      simp [resolve_attribute, ha]
  · rintro ⟨i, a, ha, hl⟩
    have hneg : ¬ ∀ i, (resolve_attribute desc i).isSome = true := by
      intro hall
      have h2 := hall i
      simp [resolve_attribute, ha, hl] at h2
    simp only [create_pipeline_state_raw]
    rw [dif_neg hneg]

/-- C9 witness: the well-formed concrete descriptor assembles
successfully. -/
theorem C9_attribute_resolution_witness :
    (create_pipeline_state_raw 7 descAttr).isSome = true := by
  obtain ⟨ps, hps, -, -⟩ := (C9_attribute_resolution 7 descAttr).1 (by
    intro i a ha
    fin_cases i <;> simp [descAttr] at ha
    subst ha; decide)
  simp [hps]

end GlFactory
